/-
  Verification of the waveguide ingest relay against its specification.

  Shallow embedding of the Go sources:
  * `pkg/control/control.go` — stream registry, StartStream/StopStream,
    heartbeat supervisor (`setupHeartbeat`);
  * the RTMP connection handler — `OnPublish`, `OnAudio`, `OnVideo`,
    `setupMetadataCollector`;
  * the FTL connection — `processConnectCommand`, `eternalMediaRead`.

  Machine integers are modelled as `Nat`/`Int` with explicit bounds where
  overflow matters; fallible Go functions return `Option`/`Except`; calls
  into external services and third-party libraries (codec, HMAC hash,
  packetizer) are passed in as explicit oracle parameters, so every
  definition stays executable.
-/
import Mathlib

namespace Waveguide

/-! ## Stream registry (`pkg/control/control.go`) -/

/-- Go errors are modelled by their message strings. -/
abbrev Err := String

/-- The fields of `control.Stream` that the registry claims touch.
Counters, codec names and track bookkeeping are carried verbatim where a
claim can observe them. -/
structure Stream where
  channelID : Nat
  streamID : Nat
  authenticated : Bool
  mediaStarted : Bool
  deriving Repr, DecidableEq

/-- `newStream` initialises `authenticated := true, mediaStarted := false`
(control.go, `newStream`). -/
def freshStream (channelID : Nat) : Stream :=
  { channelID := channelID
    streamID := 0
    authenticated := true
    mediaStarted := false }

/-- The registry map `mgr.streams : map[ChannelID]*Stream`, modelled as an
association list keyed by channel id. -/
abbrev Registry := List (Nat × Stream)

/-- Map lookup `mgr.streams[id]`. -/
def lookupStream (reg : Registry) (id : Nat) : Option Stream :=
  (reg.find? (fun p => p.1 == id)).map Prod.snd

/-- Map insert `mgr.streams[channelID] = stream` (fresh key). -/
def insertStream (reg : Registry) (id : Nat) (s : Stream) : Registry :=
  (id, s) :: reg

/-- Map delete `delete(mgr.streams, id)`. -/
def eraseStream (reg : Registry) (id : Nat) : Registry :=
  reg.filter (fun p => !(p.1 == id))

/-- External calls performed by the registry, recorded as a trace. -/
inductive Call where
  | serviceStartStream (channelID : Nat)
  | serviceEndStream (streamID : Nat)
  | orchestratorStartStream (channelID streamID : Nat)
  | orchestratorStopStream (channelID streamID : Nat)
  deriving Repr, DecidableEq

/-- `getStream` (control.go lines 361–366): look up, erroring when the
channel is not registered. -/
def getStream (reg : Registry) (id : Nat) : Except Err Stream :=
  match lookupStream reg id with
  | none => .error "GetStream stream does not exist in state"
  | some s => .ok s

/-- `removeStream` (control.go lines 350–359). -/
def removeStream (reg : Registry) (id : Nat) : Except Err Registry :=
  match lookupStream reg id with
  | none => .error "RemoveStream stream does not exist in state"
  | some _ => .ok (eraseStream reg id)

/-- `newStream` (control.go lines 319–348): build the fresh stream, fail
with the conflict error when the channel is already registered, otherwise
insert it. Returns the stream together with the updated registry. -/
def newStream (reg : Registry) (channelID : Nat) :
    Except Err (Stream × Registry) :=
  let stream := freshStream channelID
  match lookupStream reg channelID with
  | some _ => .error "stream already exists in stream manager state"
  | none => .ok (stream, insertStream reg channelID stream)

/-- Outcome of `StopStream` (control.go lines 139–175): the returned
error (if any), the registry afterwards, and the trace of external calls
made, in order. -/
structure StopOutcome where
  result : Option Err
  registry : Registry
  calls : List Call
  deriving Repr, DecidableEq

/-- `StopStream` (control.go lines 139–175).  `serviceEnd` and
`orchestratorStop` are the oracles for `mgr.service.EndStream` and
`mgr.orchestrator.StopStream` (`none` = success, `some e` = error).
After a successful lookup all three of service end-stream, orchestrator
stop-stream and registry removal are executed unconditionally; the first
error in that order is returned. -/
def stopStream (serviceEnd : Nat → Option Err)
    (orchestratorStop : Nat → Nat → Option Err)
    (reg : Registry) (channelID : Nat) : StopOutcome :=
  match getStream reg channelID with
  | .error e => { result := some e, registry := reg, calls := [] }
  | .ok stream =>
    let serviceErr := serviceEnd stream.streamID
    let orchestratorErr := orchestratorStop stream.channelID stream.streamID
    let removed := removeStream reg channelID
    let (controlErr, reg') :=
      match removed with
      | .error e => (some e, reg)
      | .ok r => (none, r)
    let calls := [Call.serviceEndStream stream.streamID,
                  Call.orchestratorStopStream stream.channelID stream.streamID]
    match serviceErr with
    | some e => { result := some e, registry := reg', calls := calls }
    | none =>
      match orchestratorErr with
      | some e => { result := some e, registry := reg', calls := calls }
      | none => { result := controlErr, registry := reg', calls := calls }

/-- Outcome of `StartStream` (control.go lines 102–137). -/
structure StartOutcome where
  result : Except Err Stream
  registry : Registry
  calls : List Call
  deriving Repr

/-- `StartStream` (control.go lines 102–137).  `serviceStart` is the
oracle for `mgr.service.StartStream` (returning a stream id or an error),
`orchestratorStart` for `mgr.orchestrator.StartStream`; the stop-side
oracles are threaded through because a failed orchestrator start calls
`StopStream`.  The heartbeat and thumbnailer goroutines are outside the
sequential model. -/
def startStream (serviceStart : Nat → Except Err Nat)
    (orchestratorStart : Nat → Nat → Option Err)
    (serviceEnd : Nat → Option Err)
    (orchestratorStop : Nat → Nat → Option Err)
    (reg : Registry) (channelID : Nat) : StartOutcome :=
  match newStream reg channelID with
  | .error e => { result := .error e, registry := reg, calls := [] }
  | .ok (stream, reg₁) =>
    match serviceStart channelID with
    | .error e =>
      let reg₂ := match removeStream reg₁ channelID with
        | .error _ => reg₁
        | .ok r => r
      { result := .error e, registry := reg₂
        calls := [Call.serviceStartStream channelID] }
    | .ok streamID =>
      let stream := { stream with streamID := streamID }
      let reg₂ := insertStream (eraseStream reg₁ channelID) channelID stream
      match orchestratorStart stream.channelID stream.streamID with
      | some e =>
        let stopped := stopStream serviceEnd orchestratorStop reg₂ channelID
        { result := .error e, registry := stopped.registry
          calls := [Call.serviceStartStream channelID,
                    Call.orchestratorStartStream stream.channelID stream.streamID]
                    ++ stopped.calls }
      | none =>
        { result := .ok stream, registry := reg₂
          calls := [Call.serviceStartStream channelID,
                    Call.orchestratorStartStream stream.channelID stream.streamID] }

/-! ## Heartbeat supervisor (`setupHeartbeat`, control.go lines 181–238) -/

/-- State of one heartbeat supervisor task: the consecutive-failure
counter `tickFailed`, whether the ticker has been stopped, and whether
`StopStream` was invoked by the supervisor. -/
structure HeartbeatState where
  tickFailed : Nat
  stopped : Bool
  stopStreamCalled : Bool
  deriving Repr, DecidableEq

/-- Supervisor state right after `setupHeartbeat` spawns (`tickFailed := 0`). -/
def initHeartbeat : HeartbeatState :=
  { tickFailed := 0, stopped := false, stopStreamCalled := false }

/-- The outcome of one tick's three external calls: whether the
thumbnail send, metadata send and orchestrator heartbeat failed. -/
structure TickErrors where
  thumbnailFailed : Bool
  metadataFailed : Bool
  heartbeatFailed : Bool
  deriving Repr, DecidableEq

/-- One `<-ticker.C` iteration of `setupHeartbeat` (control.go lines
193–230): `hasErrors` is set when any of the three calls failed; on a
failed tick `tickFailed` increments, on a fully successful one it
decrements when positive; at `tickFailed >= 5` the stream is stopped and
the ticker stops.  After the ticker has stopped the goroutine has
returned, so further ticks do nothing. -/
def heartbeatTick (errs : TickErrors) (s : HeartbeatState) : HeartbeatState :=
  if s.stopped then s
  else
    let hasErrors := errs.thumbnailFailed || errs.metadataFailed || errs.heartbeatFailed
    let tickFailed := if hasErrors then s.tickFailed + 1
      else if s.tickFailed > 0 then s.tickFailed - 1 else s.tickFailed
    if tickFailed ≥ 5 then
      { tickFailed := tickFailed, stopped := true, stopStreamCalled := true }
    else
      { s with tickFailed := tickFailed }

/-- Run the supervisor over a sequence of ticks, each given by its three
call outcomes. -/
def runHeartbeat (ticks : List TickErrors) : HeartbeatState :=
  ticks.foldl (fun s e => heartbeatTick e s) initHeartbeat

/-- A tick on which all three external calls fail. -/
def failTick : TickErrors :=
  { thumbnailFailed := true, metadataFailed := true, heartbeatFailed := true }

/-- A tick on which all three external calls succeed. -/
def okTick : TickErrors :=
  { thumbnailFailed := false, metadataFailed := false, heartbeatFailed := false }

/-! ## RTMP connection handler (`connHandler`) -/

/-- `BANDWIDTH_LIMIT = 8000 * 1000` (rtmp source, const block). -/
def BANDWIDTH_LIMIT : Nat := 8000 * 1000

/-- Cached parameter sets parsed from the AVC decoder configuration
(`h264joy.Codec`): the SPS and PPS NAL unit lists. -/
structure JoyCodec where
  sps : List (List Nat)
  pps : List (List Nat)
  deriving Repr, DecidableEq

/-- The `connHandler` fields observable by the sampler / media-callback
claims.  `videoJoyCodec = none` models the nil pointer before any
sequence header has arrived. -/
structure ConnState where
  errored : Bool
  metadataFailures : Nat
  outputBytes : Nat
  audioPackets : Nat
  videoPackets : Nat
  lastVideoPackets : Nat
  keyframes : Nat
  lastKeyFrames : Nat
  lastInterFrames : Nat
  lastFullFrame : List Nat
  videoJoyCodec : Option JoyCodec
  audioBuffer : List Nat
  deriving Repr, DecidableEq

/-- Connection state after `OnConnect` (rtmp source lines 168–185):
`metadataFailures := 0`, `errored := false`, counters zero. -/
def initConnState : ConnState :=
  { errored := false
    metadataFailures := 0
    outputBytes := 0
    audioPackets := 0
    videoPackets := 0
    lastVideoPackets := 0
    keyframes := 0
    lastKeyFrames := 0
    lastInterFrames := 0
    lastFullFrame := []
    videoJoyCodec := none
    audioBuffer := [] }

/-- One `<-ticker.C` iteration of `setupMetadataCollector` (rtmp source
lines 514–554).  `metadataSendFailed` is the oracle for
`h.control.SendMetadata()` failing on this tick.  Faithful to the source
order: bandwidth check sets `errored` and the byte counter is reset;
counters are snapshotted; on a metadata failure the failure counter is
incremented and compared against 5; finally — unconditionally — the
failure counter is reset to zero before the next tick. -/
def samplerTick (metadataSendFailed : Bool) (st : ConnState) : ConnState :=
  let st := if st.outputBytes ≥ BANDWIDTH_LIMIT then { st with errored := true } else st
  let st := { st with outputBytes := 0
                      lastVideoPackets := st.videoPackets
                      lastKeyFrames := 0
                      lastInterFrames := 0 }
  let st :=
    if metadataSendFailed then
      let st := { st with metadataFailures := st.metadataFailures + 1 }
      if st.metadataFailures > 5 then { st with errored := true } else st
    else st
  { st with metadataFailures := 0 }

/-- Run the 5-second sampler over a sequence of ticks, each flagged with
whether its metadata send failed. -/
def runSampler (ticks : List Bool) (st : ConnState) : ConnState :=
  ticks.foldl (fun s fail => samplerTick fail s) st

/-! ## RTMP media callbacks (`OnVideo`, `OnAudio`, `OnPublish`) -/

/-- `h264joy.JoinNALUsAnnexb`: concatenate the NAL units, each preceded
by an Annex-B start code.  Both the reassembly claims and the code call
the same join, so its results are compared symbolically. -/
def joinNALUsAnnexb (nalus : List (List Nat)) : List Nat :=
  nalus.foldl (fun acc nalu => acc ++ [0, 0, 0, 1] ++ nalu) []

/-- FLV frame-type tag of a video unit (`flvtag.FrameType`). -/
inductive FrameType where
  | keyFrame
  | interFrame
  | other
  deriving Repr, DecidableEq

/-- A decoded `flvtag.VideoData` unit: its frame-type tag, whether its
AVC packet type is the sequence header, and its raw payload bytes. -/
structure VideoData where
  frameType : FrameType
  isSequenceHeader : Bool
  data : List Nat
  deriving Repr, DecidableEq

/-- Result of one `OnVideo` call.  `panicNilCodec` models the Go nil
pointer dereference that occurs when a key-frame arrives before any
sequence header has populated `h.videoJoyCodec`.  On success the new
state, the reassembled `outBuf` and the written RTP payloads are
returned. -/
inductive VideoResult where
  | error (e : Err)
  | panicNilCodec
  | ok (st : ConnState) (outBuf : List Nat) (written : List (List Nat))
  deriving Repr, DecidableEq

/-- The reassembled byte stream of a successful `OnVideo` call. -/
def VideoResult.reassembled : VideoResult → Option (List Nat)
  | .ok _ outBuf _ => some outBuf
  | _ => none

/-- `OnVideo` (rtmp source lines 374–449), over the already-demuxed
`VideoData` unit.  Library calls are oracle parameters: `split` is
`h264joy.SplitNALUs` (its error value is discarded by the source),
`parseConfig` is `h264joy.FromDecoderConfig`, and `packetize` is the RTP
packetizer returning the packets' payloads. -/
def onVideo (split : List Nat → List (List Nat))
    (parseConfig : List Nat → Except Err JoyCodec)
    (packetize : List Nat → List (List Nat))
    (video : VideoData) (st : ConnState) : VideoResult :=
  if st.errored then .error "stream is not longer authenticated"
  else
    let st :=
      match video.frameType with
      | .keyFrame => { st with lastKeyFrames := st.lastKeyFrames + 1
                               keyframes := st.keyframes + 1 }
      | .interFrame => { st with lastInterFrames := st.lastInterFrames + 1 }
      | .other => st
    match
      (if video.isSequenceHeader then
        match parseConfig video.data with
        | .error e => .error e
        | .ok codec => .ok { st with videoJoyCodec := some codec }
      else (.ok st : Except Err ConnState)) with
    | .error e => .error e
    | .ok st =>
      let outBuf? : Option (List Nat) :=
        if video.frameType = .keyFrame then
          match st.videoJoyCodec with
          | none => none
          | some codec =>
            let pktnalus := split video.data
            some (joinNALUsAnnexb (codec.sps ++ codec.pps ++ pktnalus))
        else
          some (joinNALUsAnnexb (split video.data))
      match outBuf? with
      | none => .panicNilCodec
      | some outBuf =>
        let st := if video.frameType = .keyFrame then { st with lastFullFrame := outBuf } else st
        let packets := packetize outBuf
        let st := packets.foldl
          (fun s p => { s with videoPackets := s.videoPackets + 1
                               outputBytes := s.outputBytes + p.length }) st
        .ok st outBuf packets

/-- A decoded `flvtag.AudioData` unit: whether its AAC packet type is
the sequence header, plus its raw payload bytes. -/
structure AudioData where
  isSequenceHeader : Bool
  data : List Nat
  deriving Repr, DecidableEq

/-- Result of one `OnAudio` call: an error, or the new state and the
written RTP payloads. -/
inductive AudioResult where
  | error (e : Err)
  | ok (st : ConnState) (written : List (List Nat))
  deriving Repr, DecidableEq

/-- The per-packet accounting of the media write loops: one packet
written bumps the packet counter and adds the payload length to
`outputBytes`. -/
def bumpAudioCounters (st : ConnState) (packets : List (List Nat)) : ConnState :=
  packets.foldl
    (fun s p => { s with audioPackets := s.audioPackets + 1
                         outputBytes := s.outputBytes + p.length }) st

theorem bumpAudioCounters_audioBuffer (packets : List (List Nat)) (st : ConnState) :
    (bumpAudioCounters st packets).audioBuffer = st.audioBuffer := by
  induction packets generalizing st with
  | nil => rfl
  | cons p ps ih => simpa [bumpAudioCounters] using ih _

/-- The re-chunking loop of `OnAudio` (rtmp source lines 328–352): while
at least `blockSize*4 = 3840` bytes are buffered, one block is encoded
(`encode` is the opus encoder oracle) and packetized, incrementing the
packet and byte counters for every written packet. -/
def processAudioBuffer (encode : List Nat → Except Err (List Nat))
    (packetize : List Nat → List (List Nat))
    (st : ConnState) (written : List (List Nat)) :
    Except Err (ConnState × List (List Nat)) :=
  if _h : 3840 ≤ st.audioBuffer.length then
    match encode (st.audioBuffer.take 3840) with
    | .error e => .error e
    | .ok opusOutput =>
      let packets := packetize opusOutput
      let st' := bumpAudioCounters st packets
      processAudioBuffer encode packetize
        { st' with audioBuffer := st'.audioBuffer.drop 3840 } (written ++ packets)
  else .ok (st, written)
termination_by st.audioBuffer.length
decreasing_by
  simp only [List.length_drop, bumpAudioCounters_audioBuffer]
  omega

/-- `OnAudio` (rtmp source lines 294–355), over the already-demuxed
`AudioData` unit.  Oracles: `initOk` for `audioDecoder.InitRaw`,
`aacDecode` for the AAC→PCM decoder, `encode` for the opus encoder, and
`packetize` for the RTP packetizer. -/
def onAudio (initOk : Bool)
    (aacDecode : List Nat → Except Err (List Nat))
    (encode : List Nat → Except Err (List Nat))
    (packetize : List Nat → List (List Nat))
    (audio : AudioData) (st : ConnState) : AudioResult :=
  if st.errored then .error "stream is not longer authenticated"
  else if audio.isSequenceHeader then
    if initOk then .ok st []
    else .error "cannot initialize codec"
  else
    match aacDecode audio.data with
    | .error _ => .error "decode error"
    | .ok pcm =>
      let st := { st with audioBuffer := st.audioBuffer ++ pcm }
      match processAudioBuffer encode packetize st [] with
      | .error e => .error e
      | .ok (st, written) => .ok st written

/-- Outcome of the publish-name handling at the top of `OnPublish`:
an error returned to the caller, a Go runtime panic, or successful
extraction of channel id and stream key. -/
inductive PublishOutcome where
  | err (e : Err)
  | panicked
  | proceed (channelID : Nat) (streamKey : List Char)
  deriving Repr, DecidableEq

/-- `strings.SplitN(s, sep, 2)`: split at the first occurrence of the
(single-character) separator; the whole string when absent. -/
def splitN2 (sep : Char) : List Char → List (List Char)
  | [] => [[]]
  | c :: rest =>
    if c = sep then [[], rest]
    else
      match splitN2 sep rest with
      | [] => [[c]]
      | before :: tail => (c :: before) :: tail

/-- `strconv.ParseUint(s, 10, 32)`: all decimal digits, non-empty, and
the value fits in 32 bits; `none` models a returned error. -/
def parseUint32 (s : List Char) : Option Nat :=
  if s = [] then none
  else if s.all (fun c => '0' ≤ c ∧ c ≤ '9') then
    let v := s.foldl (fun acc c => acc * 10 + (c.toNat - '0'.toNat)) 0
    if v < 2 ^ 32 then some v else none
  else none

/-- The publish-name parsing and authentication-argument extraction of
`OnPublish` (rtmp source lines 192–214): empty names are rejected, the
name is split once on `'-'`, the first part is parsed as a `uint32`
channel id (a parse failure is returned as an error), and the second
part — read by `auth[1]` without a length check — is the stream key;
when the split produced only one part that index panics. -/
def onPublish (publishingName : List Char) : PublishOutcome :=
  if publishingName = [] then .err "PublishingName is empty"
  else
    let auth := splitN2 '-' publishingName
    match parseUint32 (auth.headD []) with
    | none => .err "ParseUint invalid syntax"
    | some u64 =>
      match auth with
      | _ :: streamKey :: _ => .proceed u64 streamKey
      | _ => .panicked

/-! ## FTL connection (`processConnectCommand`, `eternalMediaRead`) -/

/-- `encoding/hex` digit value: `0-9`, `a-f`, `A-F`. -/
def hexDigitVal (c : Char) : Option Nat :=
  if '0' ≤ c ∧ c ≤ '9' then some (c.toNat - '0'.toNat)
  else if 'a' ≤ c ∧ c ≤ 'f' then some (c.toNat - 'a'.toNat + 10)
  else if 'A' ≤ c ∧ c ≤ 'F' then some (c.toNat - 'A'.toNat + 10)
  else none

/-- `hex.DecodeString`: bytes from digit pairs; odd length or an invalid
digit is an error (`none`). -/
def hexDecode : List Char → Option (List Nat)
  | [] => some []
  | [_] => none
  | c1 :: c2 :: rest =>
    match hexDigitVal c1, hexDigitVal c2, hexDecode rest with
    | some hi, some lo, some bytes => some ((16 * hi + lo) :: bytes)
    | _, _, _ => none

/-- `strconv.Atoi`: optional single sign, then at least one decimal
digit, value within the 64-bit int range. -/
def atoi (s : List Char) : Option Int :=
  let (neg, digits) :=
    match s with
    | '-' :: rest => (true, rest)
    | '+' :: rest => (false, rest)
    | _ => (false, s)
  if digits = [] then none
  else if digits.all (fun c => '0' ≤ c ∧ c ≤ '9') then
    let v : Nat := digits.foldl (fun acc c => acc * 10 + (c.toNat - '0'.toNat)) 0
    if neg then
      if v ≤ 2 ^ 63 then some (-(v : Int)) else none
    else
      if v < 2 ^ 63 then some (v : Int) else none
  else none

/-- Result of `processConnectCommand` (ftl source lines 256–309):
each protocol error, or `ok` for the `200` reply. -/
inductive ConnectResult where
  | multipleConnect
  | unexpectedArguments
  | handlerError (e : Err)
  | invalidHmacHex
  | invalidHmacHash
  | ok
  deriving Repr, DecidableEq

/-- `processConnectCommand` (ftl source lines 256–309) after the command
regex has extracted the two arguments `channelIdStr` and `digestStr`.
`hm` is the oracle for the keyed HMAC-SHA512 (`hmac.New(sha512.New, key)`
applied to the cached nonce `hmacPayload`); `onConnect` and `getHmacKey`
are the handler oracles.  A second CONNECT fails; the channel id must
parse; the expected digest is the HMAC of the cached nonce under the
fetched key; the client digest must hex-decode; `hmac.Equal` is
byte-exact equality. -/
def processConnectCommand (hm : List Nat → List Nat → List Nat)
    (onConnect : Int → Option Err) (getHmacKey : Except Err (List Nat))
    (hmacRequested : Bool) (hmacPayload : List Nat)
    (channelIdStr digestStr : List Char) : ConnectResult :=
  if hmacRequested then .multipleConnect
  else
    match atoi channelIdStr with
    | none => .unexpectedArguments
    | some channelId =>
      match onConnect channelId with
      | some e => .handlerError e
      | none =>
        match getHmacKey with
        | .error e => .handlerError e
        | .ok hmacKey =>
          let expected := hm hmacKey hmacPayload
          match hexDecode digestStr with
          | none => .invalidHmacHex
          | some clientHmacHash =>
            if clientHmacHash = expected then .ok else .invalidHmacHash

/-- The payload-type fields of `FtlConnectionMetadata` learned from
attribute lines (`uint8`, zero before the attribute arrives). -/
structure FtlMetadata where
  videoPayloadType : Nat
  audioPayloadType : Nat
  deriving Repr, DecidableEq

/-- Where `eternalMediaRead` sends one parsed packet. -/
inductive MediaRoute where
  | videoTrack
  | audioTrack
  | dropped
  deriving Repr, DecidableEq

/-- The routing step of `eternalMediaRead` (ftl source lines 474–505)
for a datagram that unmarshalled into an RTP packet with the given
payload type: the video payload type is checked first, then the audio
payload type, and any other packet falls through to the `nil` return —
dropped with no write and no error. -/
def routeMediaPacket (metadata : FtlMetadata) (payloadType : Nat) : MediaRoute :=
  if payloadType = metadata.videoPayloadType then .videoTrack
  else if payloadType = metadata.audioPayloadType then .audioTrack
  else .dropped

/-! ## Theorems -/

/-- Replacing one character of a valid hex string by a hex digit of a
different value yields a string that still decodes, but to a different
byte sequence. -/
theorem hexDecode_set_ne :
    ∀ (s : List Char) (b : List Nat) (i : Nat) (c' : Char),
      hexDecode s = some b → ∀ hi : i < s.length,
      hexDigitVal c' ≠ none →
      hexDigitVal c' ≠ hexDigitVal (s.get ⟨i, hi⟩) →
      ∃ bs, hexDecode (s.set i c') = some bs ∧ bs ≠ b
  | [], _, i, c' => by
    intro _ hi
    simp at hi
  | [c], b, i, c' => by
    intro hdec
    simp [hexDecode] at hdec
  | c1 :: c2 :: rest, b, 0, c' => by
    intro hdec hi hc hne
    obtain ⟨w, hw⟩ : ∃ w, hexDigitVal c' = some w :=
      Option.ne_none_iff_exists'.mp hc
    simp only [hexDecode] at hdec
    split at hdec
    · rename_i v1 v2 bs h1 h2 h3
      rw [Option.some_inj] at hdec
      subst hdec
      have hwv : w ≠ v1 := by
        intro hwv
        apply hne
        show hexDigitVal c' = hexDigitVal c1
        rw [hw, h1, hwv]
      refine ⟨(16 * w + v2) :: bs, ?_, ?_⟩
      · show hexDecode (c' :: c2 :: rest) = _
        simp [hexDecode, hw, h2, h3]
      · intro h
        rw [List.cons.injEq] at h
        have h1' := h.1
        exact hwv (by omega)
    · exact absurd hdec (by simp)
  | c1 :: c2 :: rest, b, 1, c' => by
    intro hdec hi hc hne
    obtain ⟨w, hw⟩ : ∃ w, hexDigitVal c' = some w :=
      Option.ne_none_iff_exists'.mp hc
    simp only [hexDecode] at hdec
    split at hdec
    · rename_i v1 v2 bs h1 h2 h3
      rw [Option.some_inj] at hdec
      subst hdec
      have hwv : w ≠ v2 := by
        intro hwv
        apply hne
        show hexDigitVal c' = hexDigitVal c2
        rw [hw, h2, hwv]
      refine ⟨(16 * v1 + w) :: bs, ?_, ?_⟩
      · show hexDecode (c1 :: c' :: rest) = _
        simp [hexDecode, hw, h1, h3]
      · intro h
        rw [List.cons.injEq] at h
        have h1' := h.1
        exact hwv (by omega)
    · exact absurd hdec (by simp)
  | c1 :: c2 :: rest, b, (i + 2), c' => by
    intro hdec hi hc hne
    simp only [hexDecode] at hdec
    split at hdec
    · rename_i v1 v2 bs h1 h2 h3
      rw [Option.some_inj] at hdec
      subst hdec
      have hi' : i < rest.length := by
        simp at hi
        omega
      obtain ⟨bs', hdec', hne'⟩ :=
        hexDecode_set_ne rest bs i c' h3 hi' hc hne
      refine ⟨(16 * v1 + v2) :: bs', ?_, ?_⟩
      · show hexDecode (c1 :: c2 :: rest.set i c') = _
        simp [hexDecode, h1, h2, hdec']
      · intro h
        rw [List.cons.injEq] at h
        exact hne' h.2
    · exact absurd hdec (by simp)

/-- For a first CONNECT whose channel id parses and whose handler calls
succeed, the reply is OK exactly when the client digest hex-decodes to
the keyed HMAC of the cached nonce. -/
theorem processConnect_ok_iff (hm : List Nat → List Nat → List Nat)
    (onConnect : Int → Option Err) (secret nonce : List Nat)
    (channelIdStr digestStr : List Char) (cid : Int)
    (hcid : atoi channelIdStr = some cid) (honc : onConnect cid = none) :
    processConnectCommand hm onConnect (.ok secret) false nonce channelIdStr digestStr
        = .ok ↔ hexDecode digestStr = some (hm secret nonce) := by
  simp only [processConnectCommand, hcid, honc, Bool.false_eq_true, if_false]
  rcases hdec : hexDecode digestStr with _ | bytes
  · simp
  · by_cases hb : bytes = hm secret nonce <;> simp [hb]

/-- Claim C5: for a handshake connection holding a cached nonce and the
channel secret, the first CONNECT command (channel id well-formed,
handler calls succeeding) replies OK if and only if the hex-decoded
client digest byte-exactly equals the keyed digest of the nonce — the
HMAC-SHA512 keyed by the secret, passed here as the oracle `hm` — and in
particular flipping any single hex character of an accepted digest to a
digit of a different value, as well as malformed hex, makes the command
fail. -/
theorem connect_authentication (hm : List Nat → List Nat → List Nat)
    (onConnect : Int → Option Err) (secret nonce : List Nat)
    (channelIdStr digestStr : List Char) (cid : Int)
    (hcid : atoi channelIdStr = some cid) (honc : onConnect cid = none) :
    (processConnectCommand hm onConnect (.ok secret) false nonce channelIdStr digestStr
        = .ok ↔ hexDecode digestStr = some (hm secret nonce)) ∧
    (∀ (i : Nat) (hi : i < digestStr.length) (c' : Char),
      hexDigitVal c' ≠ none →
      hexDigitVal c' ≠ hexDigitVal (digestStr.get ⟨i, hi⟩) →
      processConnectCommand hm onConnect (.ok secret) false nonce channelIdStr digestStr
        = .ok →
      processConnectCommand hm onConnect (.ok secret) false nonce channelIdStr
        (digestStr.set i c') ≠ .ok) := by
  refine ⟨processConnect_ok_iff hm onConnect secret nonce channelIdStr digestStr cid
    hcid honc, ?_⟩
  intro i hi c' hc hne hok hok'
  have hdec := (processConnect_ok_iff hm onConnect secret nonce channelIdStr digestStr
    cid hcid honc).mp hok
  obtain ⟨bs, hdec', hbs⟩ := hexDecode_set_ne digestStr (hm secret nonce) i c' hdec hi hc hne
  have hdec'' := (processConnect_ok_iff hm onConnect secret nonce channelIdStr
    (digestStr.set i c') cid hcid honc).mp hok'
  rw [hdec'] at hdec''
  exact hbs (Option.some_inj.mp hdec'')

/-- Claim C5 witness: with secret `[1]`, nonce `[2]` and the keyed
digest oracle returning `key ++ nonce`, the digest string `"0102"` is
accepted and its single-character flip `"0103"` is rejected. -/
theorem connect_authentication_witness :
    processConnectCommand (fun key nonce => key ++ nonce) (fun _ => none) (.ok [1])
        false [2] ['4', '2'] ['0', '1', '0', '2'] = .ok ∧
    processConnectCommand (fun key nonce => key ++ nonce) (fun _ => none) (.ok [1])
        false [2] ['4', '2'] ['0', '1', '0', '3'] ≠ .ok := by
  have h := connect_authentication (fun key nonce => key ++ nonce) (fun _ => none)
    [1] [2] ['4', '2'] ['0', '1', '0', '2'] 42 (by decide) rfl
  refine ⟨h.1.mpr (by decide), ?_⟩
  have hflip := h.2 3 (by decide) '3' (by decide) (by decide) (h.1.mpr (by decide))
  simpa using hflip

/-- Claim C1, counterexample: with the heartbeat accounting of
`setupHeartbeat`, a sequence of 4 failed ticks, 1 fully successful tick
and 4 more failed ticks DOES stop the ticker and invoke `StopStream`
(the counter runs 1,2,3,4 then 3 then 4,5), contradicting the claim that
it does not trigger a stop. -/
theorem heartbeat_4fail_1ok_4fail_stops :
    (runHeartbeat (List.replicate 4 failTick ++ [okTick] ++ List.replicate 4 failTick)).stopStreamCalled
      = true ∧
    (runHeartbeat (List.replicate 4 failTick ++ [okTick] ++ List.replicate 4 failTick)).stopped
      = true := by
  decide

/-- Claim C1 (amended): on each heartbeat tick, a failure of any of the
three external calls increments the consecutive-failure counter; a fully
successful tick decrements it, floored at zero; the ticker stops and
`StopStream` is invoked exactly when the counter reaches 5.
Consequently 4 failed ticks, 1 successful tick and 4 further failed
ticks DO trigger a stop (the counter reaches 5 on the seventh tick),
while 4 failed ticks, 1 successful tick and 1 further failed tick do
not. -/
theorem heartbeat_failure_accounting :
    (∀ errs s, s.stopped = false →
      (errs.thumbnailFailed || errs.metadataFailed || errs.heartbeatFailed) = true →
      (heartbeatTick errs s).tickFailed = s.tickFailed + 1) ∧
    (∀ errs s, s.stopped = false →
      (errs.thumbnailFailed || errs.metadataFailed || errs.heartbeatFailed) = false →
      (heartbeatTick errs s).tickFailed = s.tickFailed - 1) ∧
    (∀ errs s, s.stopped = false →
      ((heartbeatTick errs s).stopped = true ∧ (heartbeatTick errs s).stopStreamCalled = true ↔
        5 ≤ (heartbeatTick errs s).tickFailed)) ∧
    (runHeartbeat (List.replicate 4 failTick ++ [okTick] ++ List.replicate 4 failTick)).stopped
      = true ∧
    (runHeartbeat (List.replicate 4 failTick ++ [okTick] ++ [failTick])).stopped = false := by
  refine ⟨?_, ?_, ?_, by decide, by decide⟩
  · intro errs s hs herr
    simp [heartbeatTick, hs, herr]
    split <;> simp
  · intro errs s hs herr
    simp [heartbeatTick, hs, herr]
    split_ifs <;> (try simp) <;> omega
  · intro errs s hs
    simp [heartbeatTick, hs]
    split_ifs <;> (try simp [hs]) <;> omega

/-- Claim C1 witness: the accounting facts evaluated at concrete
states: a failing tick at counter 2 yields 3; a successful tick at
counter 0 stays 0; a failing tick at counter 4 stops the stream. -/
theorem heartbeat_failure_accounting_witness :
    (heartbeatTick failTick { tickFailed := 2, stopped := false, stopStreamCalled := false }).tickFailed = 3 ∧
    (heartbeatTick okTick { tickFailed := 0, stopped := false, stopStreamCalled := false }).tickFailed = 0 ∧
    ((heartbeatTick failTick { tickFailed := 4, stopped := false, stopStreamCalled := false }).stopped = true ∧
      (heartbeatTick failTick { tickFailed := 4, stopped := false, stopStreamCalled := false }).stopStreamCalled = true) := by
  refine ⟨heartbeat_failure_accounting.1 failTick _ rfl rfl, ?_, ?_⟩
  · exact heartbeat_failure_accounting.2.1 okTick _ rfl rfl
  · exact (heartbeat_failure_accounting.2.2.1 failTick
      { tickFailed := 4, stopped := false, stopStreamCalled := false } rfl).mpr (by decide)

/-- Claim C2: the RTMP 5-second sampler resets `metadataFailures` to
zero unconditionally at the end of every tick, so the counter never
survives a tick and the `> 5` check never fires: after 6 consecutive
ticks whose metadata send fails (and no bandwidth overage), the
connection is still not errored — contradicting the specified forcing of
an error state after more than 5 consecutive delivery failures. -/
theorem sampler_metadata_failures_never_error :
    (∀ fail st, (samplerTick fail st).metadataFailures = 0) ∧
    (runSampler (List.replicate 6 true) initConnState).errored = false := by
  exact ⟨fun fail st => rfl, by decide⟩

/-- Claim C3: starting a stream for a channel id that is already
registered fails with the conflict error and leaves the registry — in
particular the original stream registered under that channel id — and
the external world untouched (no service or orchestrator call). -/
theorem start_stream_conflict (serviceStart : Nat → Except Err Nat)
    (orchestratorStart : Nat → Nat → Option Err)
    (serviceEnd : Nat → Option Err) (orchestratorStop : Nat → Nat → Option Err)
    (reg : Registry) (channelID : Nat) (s : Stream)
    (h : lookupStream reg channelID = some s) :
    (startStream serviceStart orchestratorStart serviceEnd orchestratorStop reg channelID).result
        = .error "stream already exists in stream manager state" ∧
    (startStream serviceStart orchestratorStart serviceEnd orchestratorStop reg channelID).registry
        = reg ∧
    (startStream serviceStart orchestratorStart serviceEnd orchestratorStop reg channelID).calls
        = [] ∧
    lookupStream
        (startStream serviceStart orchestratorStart serviceEnd orchestratorStop reg channelID).registry
        channelID = some s := by
  simp [startStream, newStream, h]

/-- Claim C3 witness: the conflict behaviour evaluated on a concrete
registry holding channel 7. -/
theorem start_stream_conflict_witness :
    (startStream (fun _ => .ok 3) (fun _ _ => none) (fun _ => none) (fun _ _ => none)
        [(7, freshStream 7)] 7).result
      = .error "stream already exists in stream manager state" ∧
    (startStream (fun _ => .ok 3) (fun _ _ => none) (fun _ => none) (fun _ _ => none)
        [(7, freshStream 7)] 7).registry = [(7, freshStream 7)] := by
  have h := start_stream_conflict (fun _ => .ok 3) (fun _ _ => none) (fun _ => none)
    (fun _ _ => none) [(7, freshStream 7)] 7 (freshStream 7) (by rfl)
  exact ⟨h.1, h.2.1⟩

/-- Claim C4: for a registered channel, `StopStream` performs the
service end-stream call, the orchestrator stop-stream call and the
registry removal — all three, regardless of which of them fail — and
returns the first error in that order (`none` when all succeed; the
removal itself always succeeds here because the stream was found). -/
theorem stop_stream_attempts_all (serviceEnd : Nat → Option Err)
    (orchestratorStop : Nat → Nat → Option Err)
    (reg : Registry) (channelID : Nat) (s : Stream)
    (h : lookupStream reg channelID = some s) :
    (stopStream serviceEnd orchestratorStop reg channelID).calls
        = [Call.serviceEndStream s.streamID,
           Call.orchestratorStopStream s.channelID s.streamID] ∧
    (stopStream serviceEnd orchestratorStop reg channelID).registry
        = eraseStream reg channelID ∧
    (stopStream serviceEnd orchestratorStop reg channelID).result
        = (match serviceEnd s.streamID with
           | some e => some e
           | none =>
             match orchestratorStop s.channelID s.streamID with
             | some e => some e
             | none => none) := by
  rcases hs : serviceEnd s.streamID with _ | e <;>
    rcases ho : orchestratorStop s.channelID s.streamID with _ | e' <;>
      simp [stopStream, getStream, removeStream, h, hs, ho]

/-- Claim C4 witness: all three teardown steps evaluated on a concrete
registry where the service end-stream call fails. -/
theorem stop_stream_attempts_all_witness :
    (stopStream (fun _ => some "svc down") (fun _ _ => none) [(7, freshStream 7)] 7).calls
      = [Call.serviceEndStream 0, Call.orchestratorStopStream 7 0] ∧
    (stopStream (fun _ => some "svc down") (fun _ _ => none) [(7, freshStream 7)] 7).registry
      = [] ∧
    (stopStream (fun _ => some "svc down") (fun _ _ => none) [(7, freshStream 7)] 7).result
      = some "svc down" := by
  have h := stop_stream_attempts_all (fun _ => some "svc down") (fun _ _ => none)
    [(7, freshStream 7)] 7 (freshStream 7) (by rfl)
  exact ⟨h.1, h.2.1, h.2.2⟩

/-- Claim C8: `StopStream` on a channel with no registered stream
returns the not-found error, performs no service or orchestrator call,
and leaves the registry unchanged. -/
theorem stop_stream_not_found (serviceEnd : Nat → Option Err)
    (orchestratorStop : Nat → Nat → Option Err)
    (reg : Registry) (channelID : Nat)
    (h : lookupStream reg channelID = none) :
    (stopStream serviceEnd orchestratorStop reg channelID).result
        = some "GetStream stream does not exist in state" ∧
    (stopStream serviceEnd orchestratorStop reg channelID).calls = [] ∧
    (stopStream serviceEnd orchestratorStop reg channelID).registry = reg := by
  simp [stopStream, getStream, h]

/-- Claim C8 witness: the not-found behaviour on an empty registry. -/
theorem stop_stream_not_found_witness :
    (stopStream (fun _ => none) (fun _ _ => none) [] 42).result
      = some "GetStream stream does not exist in state" ∧
    (stopStream (fun _ => none) (fun _ _ => none) [] 42).calls = [] ∧
    (stopStream (fun _ => none) (fun _ _ => none) [] 42).registry = [] := by
  exact stop_stream_not_found (fun _ => none) (fun _ _ => none) [] 42 (by rfl)

/-- Claim C9, counterexample: when the learned audio payload type equals
the learned video payload type (both are client-controlled attributes),
a packet carrying the audio payload type is written to the VIDEO track,
not the audio track — the video comparison is checked first. -/
theorem route_equal_payload_types_counterexample :
    routeMediaPacket { videoPayloadType := 96, audioPayloadType := 96 } 96
        = MediaRoute.videoTrack ∧
    routeMediaPacket { videoPayloadType := 96, audioPayloadType := 96 } 96
        ≠ MediaRoute.audioTrack := by
  decide

/-- Claim C9 (amended): inbound parsed media packets are routed strictly
by payload-type number with the video comparison taking precedence: a
packet whose payload type equals the learned video payload type goes to
the video track; one whose payload type equals the learned audio payload
type — and differs from the video payload type — goes to the audio
track; any other payload type is silently dropped (no write, no
error). -/
theorem route_media_packet_by_payload_type (metadata : FtlMetadata) (pt : Nat) :
    (pt = metadata.videoPayloadType → routeMediaPacket metadata pt = .videoTrack) ∧
    (pt ≠ metadata.videoPayloadType → pt = metadata.audioPayloadType →
      routeMediaPacket metadata pt = .audioTrack) ∧
    (pt ≠ metadata.videoPayloadType → pt ≠ metadata.audioPayloadType →
      routeMediaPacket metadata pt = .dropped) := by
  refine ⟨fun hv => ?_, fun hv ha => ?_, fun hv ha => ?_⟩
  · simp [routeMediaPacket, hv]
  · simp only [routeMediaPacket]
    rw [if_neg hv, if_pos ha]
  · simp [routeMediaPacket, hv, ha]

/-- Claim C9 witness: the three routing outcomes at the payload types of
the wire protocol (`96` video, `97` audio, `98` unknown). -/
theorem route_media_packet_by_payload_type_witness :
    routeMediaPacket { videoPayloadType := 96, audioPayloadType := 97 } 96
        = MediaRoute.videoTrack ∧
    routeMediaPacket { videoPayloadType := 96, audioPayloadType := 97 } 97
        = MediaRoute.audioTrack ∧
    routeMediaPacket { videoPayloadType := 96, audioPayloadType := 97 } 98
        = MediaRoute.dropped := by
  refine ⟨(route_media_packet_by_payload_type _ 96).1 (by decide),
    (route_media_packet_by_payload_type _ 97).2.1 (by decide) (by decide),
    (route_media_packet_by_payload_type _ 98).2.2 (by decide) (by decide)⟩

/-- Claim C10, counterexample: the publish name `"abc"` is non-empty and
contains no `'-'`, yet `OnPublish` does not panic: `ParseUint` fails on
it and the parse error is returned before the out-of-range index is
reached. -/
theorem publish_no_separator_counterexample :
    onPublish ['a', 'b', 'c'] = PublishOutcome.err "ParseUint invalid syntax" ∧
    onPublish ['a', 'b', 'c'] ≠ PublishOutcome.panicked := by
  decide

/-- `strings.SplitN(s, sep, 2)` yields only the whole string when the
separator does not occur in it. -/
theorem splitN2_of_not_mem (sep : Char) :
    ∀ s : List Char, sep ∉ s → splitN2 sep s = [s]
  | [], _ => rfl
  | c :: rest, h => by
    have hc : ¬c = sep := fun hc => h (by simp [hc])
    have hrest : sep ∉ rest := fun hr => h (List.mem_cons_of_mem _ hr)
    simp [splitN2, hc, splitN2_of_not_mem sep rest hrest]

/-- Claim C10 (amended): `OnPublish` panics (out-of-range index into the
split result) exactly on the publish names that are non-empty, contain
no `'-'` separator, and parse as a decimal unsigned 32-bit integer; a
non-empty separator-free name that fails that parse is instead rejected
with the parse error. -/
theorem publish_no_separator_panics (name : List Char)
    (hne : name ≠ []) (hsep : Char.ofNat 45 ∉ name) :
    (∀ v, parseUint32 name = some v → onPublish name = .panicked) ∧
    (parseUint32 name = none →
      onPublish name = .err "ParseUint invalid syntax") := by
  have hsplit : splitN2 (Char.ofNat 45) name = [name] :=
    splitN2_of_not_mem (Char.ofNat 45) name hsep
  constructor
  · intro v hv
    simp [onPublish, hne, hsplit, hv]
  · intro hv
    simp [onPublish, hne, hsplit, hv]

/-- Claim C10 witness: the numeric separator-free name `"123"` panics,
and the non-numeric one `"abc"` returns the parse error. -/
theorem publish_no_separator_panics_witness :
    onPublish ['1', '2', '3'] = PublishOutcome.panicked ∧
    onPublish ['a', 'b', 'c'] = PublishOutcome.err "ParseUint invalid syntax" := by
  refine ⟨(publish_no_separator_panics ['1', '2', '3'] (by decide) (by decide)).1
      123 (by decide),
    (publish_no_separator_panics ['a', 'b', 'c'] (by decide) (by decide)).2 (by decide)⟩

/-- Claim C7: once the 5-second sampler observes the accumulated output
bytes at or above `BANDWIDTH_LIMIT`, it marks the connection errored and
resets the byte counter; the errored flag survives every later sampler
tick, and every media callback on an errored connection — `OnAudio` as
well as `OnVideo` — fails with the "not authenticated"-class error
instead of processing the unit: a one-tick-delayed failure rather than
an in-place abort. -/
theorem bandwidth_cutoff_fails_next_callback :
    (∀ fail st, BANDWIDTH_LIMIT ≤ st.outputBytes →
      (samplerTick fail st).errored = true ∧ (samplerTick fail st).outputBytes = 0) ∧
    (∀ fail st, st.errored = true → (samplerTick fail st).errored = true) ∧
    (∀ split parseConfig packetize video st, st.errored = true →
      onVideo split parseConfig packetize video st
        = .error "stream is not longer authenticated") ∧
    (∀ initOk aacDecode encode packetize audio st, st.errored = true →
      onAudio initOk aacDecode encode packetize audio st
        = .error "stream is not longer authenticated") := by
  refine ⟨fun fail st h => ?_, fun fail st h => ?_,
    fun split parseConfig packetize video st h => ?_,
    fun initOk aacDecode encode packetize audio st h => ?_⟩
  · simp [samplerTick, h]
    split_ifs <;> simp
  · simp [samplerTick, h]
    split_ifs <;> simp_all
  · simp [onVideo, h]
  · simp [onAudio, h]

/-- Claim C7 witness: a state at exactly the bandwidth ceiling becomes
errored with a zeroed counter, stays errored on the next tick, and both
media callbacks then fail. -/
theorem bandwidth_cutoff_fails_next_callback_witness :
    (samplerTick false { initConnState with outputBytes := BANDWIDTH_LIMIT }).errored = true ∧
    (samplerTick false { initConnState with outputBytes := BANDWIDTH_LIMIT }).outputBytes = 0 ∧
    (samplerTick false { initConnState with errored := true }).errored = true ∧
    onVideo (fun _ => []) (fun _ => .error "") (fun _ => [])
        { frameType := .keyFrame, isSequenceHeader := false, data := [] }
        { initConnState with errored := true }
      = .error "stream is not longer authenticated" ∧
    onAudio true (fun _ => .ok []) (fun _ => .ok []) (fun _ => [])
        { isSequenceHeader := false, data := [] }
        { initConnState with errored := true }
      = .error "stream is not longer authenticated" := by
  refine ⟨(bandwidth_cutoff_fails_next_callback.1 false _ (by decide)).1,
    (bandwidth_cutoff_fails_next_callback.1 false _ (by decide)).2,
    bandwidth_cutoff_fails_next_callback.2.1 false _ (by decide),
    bandwidth_cutoff_fails_next_callback.2.2.1 _ _ _ _ _ (by decide),
    bandwidth_cutoff_fails_next_callback.2.2.2 _ _ _ _ _ _ (by decide)⟩

/-- Claim C6: on a non-errored connection with cached parameter sets
`[SPS, PPS]`, a key-frame whose payload splits into the NAL units
`[N1, N2]` reassembles to `annexb(SPS, PPS, N1, N2)` — the cached
parameter sets prefixed before the frame's own NAL units — while an
inter-frame whose payload splits into `[N3]` reassembles to
`annexb(N3)` with no parameter sets prepended. -/
theorem video_reassembly (split : List Nat → List (List Nat))
    (parseConfig : List Nat → Except Err JoyCodec)
    (packetize : List Nat → List (List Nat))
    (spsNal ppsNal n1 n2 n3 keyData interData : List Nat) (st : ConnState)
    (herr : st.errored = false)
    (hcodec : st.videoJoyCodec = some { sps := [spsNal], pps := [ppsNal] })
    (hkey : split keyData = [n1, n2]) (hinter : split interData = [n3]) :
    (onVideo split parseConfig packetize
        { frameType := .keyFrame, isSequenceHeader := false, data := keyData } st).reassembled
      = some (joinNALUsAnnexb [spsNal, ppsNal, n1, n2]) ∧
    (onVideo split parseConfig packetize
        { frameType := .interFrame, isSequenceHeader := false, data := interData } st).reassembled
      = some (joinNALUsAnnexb [n3]) := by
  constructor
  · simp [onVideo, herr, hcodec, hkey, VideoResult.reassembled]
  · simp [onVideo, herr, hinter, VideoResult.reassembled]

/-- Claim C6 witness: concrete reassembly — key-frame NALs `[5],[6]`
with cached SPS `[7]` and PPS `[8]` produce the Annex-B join of all
four, the inter-frame NAL `[9]` the join of itself alone. -/
theorem video_reassembly_witness :
    (onVideo (fun d => if d = [0] then [[5], [6]] else [[9]])
        (fun _ => .error "") (fun _ => [])
        { frameType := .keyFrame, isSequenceHeader := false, data := [0] }
        { initConnState with
            videoJoyCodec := some { sps := [[7]], pps := [[8]] } }).reassembled
      = some (joinNALUsAnnexb [[7], [8], [5], [6]]) ∧
    (onVideo (fun d => if d = [0] then [[5], [6]] else [[9]])
        (fun _ => .error "") (fun _ => [])
        { frameType := .interFrame, isSequenceHeader := false, data := [1] }
        { initConnState with
            videoJoyCodec := some { sps := [[7]], pps := [[8]] } }).reassembled
      = some (joinNALUsAnnexb [[9]]) := by
  exact video_reassembly (fun d => if d = [0] then [[5], [6]] else [[9]])
    (fun _ => .error "") (fun _ => []) [7] [8] [5] [6] [9] [0] [1]
    { initConnState with videoJoyCodec := some { sps := [[7]], pps := [[8]] } }
    (by decide) (by decide) (by decide) (by decide)

end Waveguide
